import Mathlib

set_option linter.unusedVariables false

/-!
Verification development for the G90-SDR control scripts.

Shallow embedding of the three core components:
  * `RigControl`    — the CAT Gateway (`scripts/rig_control.py`)
  * `RigctldBridge` — the protocol bridge server (`scripts/rigctld_bridge.py`)
  * `FrequencySync` — the bidirectional synchronizer (`scripts/frequency_sync.py`)

Remote endpoints are modelled as oracles (their per-call results are
parameters), time is modelled by rational numbers, and each operation
additionally returns the list of remote requests it issued so that
claims about which calls reach the endpoint, and through which path,
can be stated and proved.
-/

/-- Python `str.upper()` for the ASCII strings this protocol uses, written
over the character list so that it evaluates inside the kernel. -/
def pyUpper (s : String) : String := String.mk (s.data.map Char.toUpper)

namespace RigControl

/-- Whether a remote request was issued through `_safe_call` (class-level
lock plus rate limiting) or directly on the XML-RPC proxy. -/
inductive Path where
  | safe
  | direct
deriving DecidableEq, Repr

/-- One remote request issued against the FlRig endpoint: the path it was
routed through and the endpoint method name. -/
structure RemoteEvent where
  path : Path
  name : String
deriving DecidableEq, Repr

/-- `RigControl._min_request_interval = 0.05` (50ms between requests). -/
def min_request_interval : ℚ := 1/20

/-- Timing model of `RigControl._safe_call`: with the lock held, the caller
reads the clock (`now`); if less than `min_request_interval` elapsed since
`_last_request_time` (`last`), it sleeps exactly the difference, so the
remote request starts at `last + min_request_interval`; otherwise it starts
at `now`. -/
def safeCallStart (last now : ℚ) : ℚ :=
  if now - last < min_request_interval then last + min_request_interval else now

/-- `RigControl.get_frequency`: connection check, then `rig.get_vfo` via
`_safe_call`; the response (already parsed by `int(float(·))`) or an
exception is the oracle `resp`. -/
def get_frequency (connected : Bool) (resp : Except Unit Int) :
    Option Int × List RemoteEvent :=
  if ¬ connected then (none, [])
  else
    match resp with
    | .ok v => (some v, [⟨.safe, "rig.get_vfo"⟩])
    | .error _ => (none, [⟨.safe, "rig.get_vfo"⟩])

/-- `RigControl.set_frequency`: connection check, then `rig.set_vfo` via
`_safe_call`; `ok` tells whether the remote call succeeded. -/
def set_frequency (connected : Bool) (frequency : Int) (ok : Bool) :
    Bool × List RemoteEvent :=
  if ¬ connected then (false, [])
  else (ok, [⟨.safe, "rig.set_vfo"⟩])

/-- `RigControl.get_mode`: connection check, then `rig.get_mode` via
`_safe_call`. -/
def get_mode (connected : Bool) (resp : Except Unit String) :
    Option String × List RemoteEvent :=
  if ¬ connected then (none, [])
  else
    match resp with
    | .ok m => (some m, [⟨.safe, "rig.get_mode"⟩])
    | .error _ => (none, [⟨.safe, "rig.get_mode"⟩])

/-- The `valid_modes` list of `RigControl.set_mode`, in source order. -/
def valid_modes : List String :=
  ["USB", "LSB", "CW", "AM", "FM", "CW-R", "RTTY", "RTTY-R"]

/-- `RigControl.set_mode`: connection check, then the `valid_modes`
validation on the upper-cased argument (failing without any remote call),
then `rig.set_mode` via `_safe_call`. -/
def set_mode (connected : Bool) (mode : String) (ok : Bool) :
    Bool × List RemoteEvent :=
  if ¬ connected then (false, [])
  else if (pyUpper mode) ∉ valid_modes then (false, [])
  else (ok, [⟨.safe, "rig.set_mode"⟩])

/-- FlRig's `rig.get_bw` sometimes returns a list, sometimes a scalar. -/
inductive BwResult where
  | list (xs : List Int)
  | scalar (v : Int)

/-- `RigControl.get_bandwidth`: connection check, then `rig.get_bw` via
`_safe_call`; a list response uses its first element, an empty list is an
error. -/
def get_bandwidth (connected : Bool) (resp : Except Unit BwResult) :
    Option Int × List RemoteEvent :=
  if ¬ connected then (none, [])
  else
    match resp with
    | .error _ => (none, [⟨.safe, "rig.get_bw"⟩])
    | .ok (.list []) => (none, [⟨.safe, "rig.get_bw"⟩])
    | .ok (.list (x :: _)) => (some x, [⟨.safe, "rig.get_bw"⟩])
    | .ok (.scalar v) => (some v, [⟨.safe, "rig.get_bw"⟩])

/-- `RigControl.set_bandwidth`: connection check, then `rig.set_bw` via
`_safe_call`. -/
def set_bandwidth (connected : Bool) (bandwidth : Int) (ok : Bool) :
    Bool × List RemoteEvent :=
  if ¬ connected then (false, [])
  else (ok, [⟨.safe, "rig.set_bw"⟩])

/-- `RigControl.get_power`: connection check, then `rig.get_power` via
`_safe_call`. -/
def get_power (connected : Bool) (resp : Except Unit ℚ) :
    Option ℚ × List RemoteEvent :=
  if ¬ connected then (none, [])
  else
    match resp with
    | .ok p => (some p, [⟨.safe, "rig.get_power"⟩])
    | .error _ => (none, [⟨.safe, "rig.get_power"⟩])

/-- `RigControl.set_power`: connection check, then the `0 <= power <= 10`
validation (failing without any remote call), then `rig.set_power` via
`_safe_call`. -/
def set_power (connected : Bool) (power : ℚ) (ok : Bool) :
    Bool × List RemoteEvent :=
  if ¬ connected then (false, [])
  else if ¬ (0 ≤ power ∧ power ≤ 10) then (false, [])
  else (ok, [⟨.safe, "rig.set_power"⟩])

/-- `RigControl.get_ptt`: connection check, then `self.proxy.rig.get_ptt()`
issued DIRECTLY on the proxy (not through `_safe_call`); the result is
`bool(int(·))`. -/
def get_ptt (connected : Bool) (resp : Except Unit Int) :
    Option Bool × List RemoteEvent :=
  if ¬ connected then (none, [])
  else
    match resp with
    | .ok n => (some (n != 0), [⟨.direct, "rig.get_ptt"⟩])
    | .error _ => (none, [⟨.direct, "rig.get_ptt"⟩])

/-- `RigControl.set_ptt`: connection check, then
`self.proxy.rig.set_ptt(1 if state else 0)` issued DIRECTLY on the proxy
(not through `_safe_call`). -/
def set_ptt (connected : Bool) (state : Bool) (ok : Bool) :
    Bool × List RemoteEvent :=
  if ¬ connected then (false, [])
  else (ok, [⟨.direct, "rig.set_ptt"⟩])

end RigControl

namespace RigctldBridge

/-- `RigctldBridge.ptt_timeout = 180` (3 minutes max PTT time, seconds). -/
def ptt_timeout : ℚ := 180

/-- The `time.sleep(1.0)` cadence of `_ptt_monitor_loop` (seconds). -/
def monitor_tick : ℚ := 1

/-- State/result of `RigctldBridge._set_ptt` (the PTT safety wrapper):
given the current `ptt_on_time`, the requested `state`, whether the
underlying `rig.set_ptt` call succeeds (`rigSetPttOk`) and the current
clock (`now`), returns the Boolean result and the new `ptt_on_time`.
On PTT-on success the session start time is recorded; on PTT-off success
it is cleared; on failure it is left unchanged. -/
def _set_ptt (ptt_on_time : Option ℚ) (state : Bool) (rigSetPttOk : Bool)
    (now : ℚ) : Bool × Option ℚ :=
  if state then
    if rigSetPttOk then (true, some now) else (false, ptt_on_time)
  else
    if rigSetPttOk then (true, none) else (false, ptt_on_time)

/-- One wake of `RigctldBridge._ptt_monitor_loop`: if `ptt_on_time` is set
(Python truthiness: a non-`None`, non-zero timestamp) and the session
duration strictly exceeds `ptt_timeout`, PTT is forced off through
`_set_ptt(False)`. Returns the new `ptt_on_time` and whether a forced
PTT-off was invoked at this wake. -/
def _ptt_monitor_step (ptt_on_time : Option ℚ) (rigSetPttOk : Bool)
    (now : ℚ) : Option ℚ × Bool :=
  match ptt_on_time with
  | none => (none, false)
  | some t =>
    if t ≠ 0 then
      if now - t > ptt_timeout then
        ((_set_ptt (some t) false rigSetPttOk now).2, true)
      else (some t, false)
    else (some t, false)

/-- The bookkeeping of `RigctldBridge.__init__` and `stop` that the
lifecycle claims depend on. `owns_rig` is set at construction: `false`
when a caller-supplied `RigControl` is shared, `true` when the Bridge
created its own. `rigConnected` mirrors the `RigControl` instance's
`_connected` flag. -/
structure BridgeState where
  running : Bool
  owns_rig : Bool
  rigConnected : Bool
  ptt_on_time : Option ℚ
  hasServerSocket : Bool
  hasServerThread : Bool
  hasPttMonitorThread : Bool
deriving DecidableEq

/-- The externally visible steps `RigctldBridge.stop` performs, in order. -/
inductive StopAction where
  | closeSocket
  | joinServerThread
  | joinPttMonitorThread
  | forcePttOff
  | disconnectRig
deriving DecidableEq, Repr

/-- `RigctldBridge.stop`: returns immediately when not running; otherwise
clears `running`, closes the server socket (if any), joins the server and
PTT monitor threads (bounded timeout), attempts `_set_ptt(False)` inside a
`try/except: pass` (so a failing attempt — modelled by
`rigSetPttOk = false` — is swallowed), and finally calls
`self.rig.disconnect()` unconditionally, which clears the `RigControl`'s
connected flag. -/
def stop (s : BridgeState) (rigSetPttOk : Bool) (now : ℚ) :
    BridgeState × List StopAction :=
  if ¬ s.running then (s, [])
  else
    ({ s with
        running := false
        hasServerSocket := false
        ptt_on_time := (_set_ptt s.ptt_on_time false rigSetPttOk now).2
        rigConnected := false },
      (if s.hasServerSocket then [StopAction.closeSocket] else []) ++
      (if s.hasServerThread then [StopAction.joinServerThread] else []) ++
      (if s.hasPttMonitorThread then [StopAction.joinPttMonitorThread] else []) ++
      [StopAction.forcePttOff, StopAction.disconnectRig])

/-- `RigctldBridge.mode_map` (HamLib mode names → FlRig mode names), as the
Python dict literal in insertion order. -/
def mode_map : List (String × String) :=
  [("USB", "USB"), ("LSB", "LSB"), ("CW", "CW"), ("CWR", "CW-R"),
   ("AM", "AM"), ("FM", "FM"), ("RTTY", "RTTY"), ("RTTYR", "RTTY-R"),
   ("PKTUSB", "USB"), ("PKTLSB", "LSB")]

/-- Python `dict.get(k, dflt)` over an insertion-ordered binding list:
the latest binding of `k` wins (later insertions overwrite earlier ones),
`dflt` if `k` was never bound. -/
def dict_get (l : List (String × String)) (k dflt : String) : String :=
  ((l.reverse.find? (fun p => p.1 == k)).map Prod.snd).getD dflt

/-- `RigctldBridge.mode_map_reverse = {v: k for k, v in mode_map.items()}`:
the comprehension inserts the swapped pairs in `mode_map`'s insertion
order, so a later duplicate value overwrites an earlier one. -/
def mode_map_reverse : List (String × String) :=
  mode_map.map (fun p => (p.2, p.1))

/-- Per-call results of the shared `RigControl` instance (and, for `T`, of
the `_set_ptt` safety wrapper) as seen by `_process_command`. -/
structure GatewayOracle where
  get_frequency : Option Int
  set_frequency : Int → Bool
  get_mode : Option String
  set_mode : String → Bool
  get_ptt : Option Bool
  set_ptt : Bool → Bool

/-- A Gateway operation invoked by `_process_command`. -/
inductive GwCall where
  | getFrequency
  | setFrequency (hz : Int)
  | getMode
  | setMode (m : String)
  | getPtt
  | setPtt (b : Bool)
deriving DecidableEq, Repr

/-- Helper for `pySplit`: walk the characters, accumulating the current
token in reverse. -/
def pySplitAux : List Char → List Char → List String
  | [], cur => if cur.isEmpty then [] else [String.mk cur.reverse]
  | c :: rest, cur =>
    if c.isWhitespace then
      if cur.isEmpty then pySplitAux rest []
      else String.mk cur.reverse :: pySplitAux rest []
    else pySplitAux rest (c :: cur)

/-- Python `str.split()`: split on runs of whitespace, dropping empties. -/
def pySplit (s : String) : List String := pySplitAux s.data []

/-- Python `int(float(s))` for the plain decimal forms the protocol uses:
optional sign, digits, optional fractional part; the result is truncated
toward zero (i.e. the integer part). `none` models `ValueError`. -/
def pyFloatToInt (s : String) : Option Int :=
  let core : List Char → Option Nat := fun cs =>
    let ip := cs.takeWhile (fun c => c ≠ '.')
    let rest := cs.dropWhile (fun c => c ≠ '.')
    match rest with
    | [] =>
      if ip ≠ [] ∧ ip.all Char.isDigit then
        some (ip.foldl (fun a c => a * 10 + (c.toNat - 48)) 0)
      else none
    | _ :: fp =>
      if (ip ≠ [] ∨ fp ≠ []) ∧ ip.all Char.isDigit ∧ fp.all Char.isDigit then
        some (ip.foldl (fun a c => a * 10 + (c.toNat - 48)) 0)
      else none
  match s.toList with
  | '-' :: r => (core r).map (fun n => -(n : Int))
  | '+' :: r => (core r).map (fun n => (n : Int))
  | r => (core r).map (fun n => (n : Int))

/-- Python `int(s)`: optional sign and digits; `none` models `ValueError`. -/
def pyInt (s : String) : Option Int := s.toInt?

/-- The static `_dump_state` capability-negotiation payload. -/
def dump_state_payload : String :=
  "0\n2\n2\n150000.000000 30000000.000000 0x1ff -1 -1 0x10000003 0x3\n" ++
  "0 0 0 0 0 0 0\n150000.000000 30000000.000000 0x1ff -1 -1 0x10000003 0x3\n" ++
  "0 0 0 0 0 0 0\n0 0\n0 0\n0x1ff 1\n0x1ff 0\n0 0\n0x1e 2400\n0x2 500\n" ++
  "0x1 8000\n0x1 2400\n0x20 15000\n0x20 8000\n0x40 230000\n0 0\n9990\n9990\n" ++
  "10000\n0\n10\n10\n10000\n1\n1\n1\n0\n0\n0\n"

/-- The dispatch of `RigctldBridge._process_command` after
`command.split()`: one branch per supported command, returning the reply
(before the trailing `\n` added by `_handle_client`) and the list of
Gateway operations invoked. -/
def _process_parts (parts : List String) (gw : GatewayOracle) :
    Option String × List GwCall :=
  match parts with
  | [] => (some "RPRT -1", [])
  | cmd :: rest =>
    if cmd = "f" then
      match gw.get_frequency with
      | some freq => (some (toString freq), [.getFrequency])
      | none => (some "RPRT -1", [.getFrequency])
    else if cmd = "F" then
      match rest with
      | [] => (some "RPRT -1", [])
      | a :: _ =>
        match pyFloatToInt a with
        | none => (some "RPRT -1", [])
        | some freq =>
          if gw.set_frequency freq then (some "RPRT 0", [.setFrequency freq])
          else (some "RPRT -1", [.setFrequency freq])
    else if cmd = "m" then
      match gw.get_mode with
      | some mode =>
        if mode ≠ "" then
          (some (dict_get mode_map_reverse mode "USB" ++ "\n0"), [.getMode])
        else (some "RPRT -1", [.getMode])
      | none => (some "RPRT -1", [.getMode])
    else if cmd = "M" then
      match rest with
      | [] => (some "RPRT -1", [])
      | a :: _ =>
        let flrig_mode := dict_get mode_map (pyUpper a) "USB"
        if gw.set_mode flrig_mode then (some "RPRT 0", [.setMode flrig_mode])
        else (some "RPRT -1", [.setMode flrig_mode])
    else if cmd = "t" then
      match gw.get_ptt with
      | some ptt => (some (if ptt then "1" else "0"), [.getPtt])
      | none => (some "RPRT -1", [.getPtt])
    else if cmd = "T" then
      match rest with
      | [] => (some "RPRT -1", [])
      | a :: _ =>
        match pyInt a with
        | none => (some "RPRT -1", [])
        | some v =>
          if gw.set_ptt (v == 1) then (some "RPRT 0", [.setPtt (v == 1)])
          else (some "RPRT -1", [.setPtt (v == 1)])
    else if cmd = "v" then (some "VFOA", [])
    else if cmd = "V" then (some "RPRT 0", [])
    else if cmd = "s" then (some "0\nVFOA", [])
    else if cmd = "S" then (some "RPRT 0", [])
    else if cmd = "\\dump_state" then (some dump_state_payload, [])
    else if cmd = "\\get_powerstat" then (some "1", [])
    else if cmd = "\\chk_vfo" then (some "RPRT 0", [])
    else if cmd = "q" ∨ cmd = "Q" then (some "RPRT 0", [])
    else (some "RPRT -1", [])

/-- `RigctldBridge._process_command`: split the received line on
whitespace and dispatch. -/
def _process_command (command : String) (gw : GatewayOracle) :
    Option String × List GwCall :=
  _process_parts (pySplit command) gw

/-- A key never bound in `mode_map` looks up to the `"USB"` default. -/
theorem dict_get_mode_map_default (k : String)
    (hk : k ∉ mode_map.map Prod.fst) : dict_get mode_map k "USB" = "USB" := by
  simp only [mode_map, List.map_cons, List.map_nil, List.mem_cons,
    List.not_mem_nil, or_false, not_or] at hk
  obtain ⟨h1, h2, h3, h4, h5, h6, h7, h8, h9, h10⟩ := hk
  simp [dict_get, mode_map, List.find?,
    beq_eq_false_iff_ne.mpr (Ne.symm h1), beq_eq_false_iff_ne.mpr (Ne.symm h2),
    beq_eq_false_iff_ne.mpr (Ne.symm h3), beq_eq_false_iff_ne.mpr (Ne.symm h4),
    beq_eq_false_iff_ne.mpr (Ne.symm h5), beq_eq_false_iff_ne.mpr (Ne.symm h6),
    beq_eq_false_iff_ne.mpr (Ne.symm h7), beq_eq_false_iff_ne.mpr (Ne.symm h8),
    beq_eq_false_iff_ne.mpr (Ne.symm h9), beq_eq_false_iff_ne.mpr (Ne.symm h10)]

/-- A key never bound in `mode_map_reverse` (its keys are the eight internal
modes) looks up to the `"USB"` default. -/
theorem dict_get_mode_map_reverse_default (k : String)
    (hk : k ∉ ["USB", "LSB", "CW", "CW-R", "AM", "FM", "RTTY", "RTTY-R"]) :
    dict_get mode_map_reverse k "USB" = "USB" := by
  simp only [List.mem_cons, List.not_mem_nil, or_false, not_or] at hk
  obtain ⟨h1, h2, h3, h4, h5, h6, h7, h8⟩ := hk
  simp [dict_get, mode_map_reverse, mode_map, List.find?,
    beq_eq_false_iff_ne.mpr (Ne.symm h1), beq_eq_false_iff_ne.mpr (Ne.symm h2),
    beq_eq_false_iff_ne.mpr (Ne.symm h3), beq_eq_false_iff_ne.mpr (Ne.symm h4),
    beq_eq_false_iff_ne.mpr (Ne.symm h5), beq_eq_false_iff_ne.mpr (Ne.symm h6),
    beq_eq_false_iff_ne.mpr (Ne.symm h7), beq_eq_false_iff_ne.mpr (Ne.symm h8)]

end RigctldBridge

namespace FrequencySync

/-- The synchronizer's cursors (`last_rig_frequency`, `last_sdr_frequency`,
`last_mode` in `FrequencySync.__init__`). -/
structure SyncState where
  last_rig_frequency : Int
  last_sdr_frequency : Int
  last_mode : String
deriving DecidableEq, Repr

/-- A write issued during one `sync_once` cycle (attempts included: a
failed write was still issued to the endpoint). -/
inductive WriteEvent where
  | sdrSetFrequency (hz : Int)
  | rigSetFrequency (hz : Int)
  | sdrSetMode (m : String)
deriving DecidableEq, Repr

/-- Whether a write event is a frequency write (as opposed to a mode
write). -/
def isFreqWrite : WriteEvent → Bool
  | .sdrSetMode _ => false
  | _ => true

/-- `FrequencySync.sync_once`, with the three reads supplied as oracles
(`rig_frequency`, `sdr_frequency`, `rig_mode`; `none` models a failed
read) and the three write endpoints as success oracles. Returns the
Boolean result, the updated cursors, and the writes issued this cycle.

Source logic: a failed rig frequency or rig mode read returns `False`
immediately; a failed SDR++ frequency read substitutes the
`last_sdr_frequency` cursor; change flags are computed against the
cursors; the frequency branch prefers the rig when both sides changed,
updating both cursors on write success and returning `False` (cursors
untouched) on write failure; the mode branch then pushes the rig mode to
SDR++ when it changed. -/
def sync_once (st : SyncState) (rig_frequency : Option Int)
    (sdr_frequency : Option Int) (rig_mode : Option String)
    (sdrSetFreqOk : Int → Bool) (rigSetFreqOk : Int → Bool)
    (sdrSetModeOk : String → Bool) :
    Bool × SyncState × List WriteEvent :=
  match rig_frequency, rig_mode with
  | some rf, some rm =>
    let sf := sdr_frequency.getD st.last_sdr_frequency
    let rig_changed := rf ≠ st.last_rig_frequency
    let sdr_changed := sf ≠ st.last_sdr_frequency
    let mode_changed := rm ≠ st.last_mode
    let freqStep : Except (List WriteEvent) (SyncState × List WriteEvent) :=
      if rig_changed ∧ sdr_changed then
        if sdrSetFreqOk rf then
          .ok ({ st with last_rig_frequency := rf, last_sdr_frequency := rf },
               [.sdrSetFrequency rf])
        else .error [.sdrSetFrequency rf]
      else if rig_changed then
        if sdrSetFreqOk rf then
          .ok ({ st with last_rig_frequency := rf, last_sdr_frequency := rf },
               [.sdrSetFrequency rf])
        else .error [.sdrSetFrequency rf]
      else if sdr_changed then
        if rigSetFreqOk sf then
          .ok ({ st with last_sdr_frequency := sf, last_rig_frequency := sf },
               [.rigSetFrequency sf])
        else .error [.rigSetFrequency sf]
      else .ok (st, [])
    match freqStep with
    | .error evs => (false, st, evs)
    | .ok (st1, evs) =>
      if mode_changed then
        if sdrSetModeOk rm then
          (true, { st1 with last_mode := rm }, evs ++ [.sdrSetMode rm])
        else (false, st1, evs ++ [.sdrSetMode rm])
      else (true, st1, evs)
  | _, _ => (false, st, [])

end FrequencySync

/-! ## Claims -/

/-- C1, counterexample: `RigControl.set_ptt`, called while connected,
issues its remote request directly on the proxy rather than through the
`_safe_call` mutual-exclusion/rate-limiting guard, so it is not the case
that every Gateway operation routes through the guard. -/
theorem C1_counterexample :
    ¬ (∀ e ∈ (RigControl.set_ptt true true true).2,
        e.path = RigControl.Path.safe) := by
  decide

/-- C1 (amended): every Gateway operation except `get_ptt` and `set_ptt`
— `get_frequency`, `set_frequency`, `get_mode`, `set_mode`,
`get_bandwidth`, `set_bandwidth`, `get_power`, `set_power` — issues its
remote request only through the `_safe_call` guard, and for any two
consecutive `_safe_call` invocations the elapsed time between call starts
is at least the configured minimum spacing (50ms). -/
theorem C1_safe_call_routing_and_spacing :
    (∀ c r, ∀ e ∈ (RigControl.get_frequency c r).2,
      e.path = RigControl.Path.safe) ∧
    (∀ c f ok, ∀ e ∈ (RigControl.set_frequency c f ok).2,
      e.path = RigControl.Path.safe) ∧
    (∀ c r, ∀ e ∈ (RigControl.get_mode c r).2,
      e.path = RigControl.Path.safe) ∧
    (∀ c m ok, ∀ e ∈ (RigControl.set_mode c m ok).2,
      e.path = RigControl.Path.safe) ∧
    (∀ c r, ∀ e ∈ (RigControl.get_bandwidth c r).2,
      e.path = RigControl.Path.safe) ∧
    (∀ c b ok, ∀ e ∈ (RigControl.set_bandwidth c b ok).2,
      e.path = RigControl.Path.safe) ∧
    (∀ c r, ∀ e ∈ (RigControl.get_power c r).2,
      e.path = RigControl.Path.safe) ∧
    (∀ c p ok, ∀ e ∈ (RigControl.set_power c p ok).2,
      e.path = RigControl.Path.safe) ∧
    (∀ last now₁ fin₁ now₂,
      RigControl.safeCallStart last now₁ ≤ fin₁ → fin₁ ≤ now₂ →
      RigControl.min_request_interval ≤
        RigControl.safeCallStart fin₁ now₂ -
          RigControl.safeCallStart last now₁) := by
  refine ⟨?_, ?_, ?_, ?_, ?_, ?_, ?_, ?_, ?_⟩
  · intro c r
    cases c <;> cases r <;> simp [RigControl.get_frequency]
  · intro c f ok
    cases c <;> simp [RigControl.set_frequency]
  · intro c r
    cases c <;> cases r <;> simp [RigControl.get_mode]
  · intro c m ok
    cases c <;> simp [RigControl.set_mode]
    split <;> simp
  · intro c r
    cases c
    · simp [RigControl.get_bandwidth]
    · rcases r with _ | (⟨_ | ⟨x, xs⟩⟩ | v) <;> simp [RigControl.get_bandwidth]
  · intro c b ok
    cases c <;> simp [RigControl.set_bandwidth]
  · intro c r
    cases c <;> cases r <;> simp [RigControl.get_power]
  · intro c p ok
    cases c <;> simp [RigControl.set_power]
    split <;> simp
  · intro last now₁ fin₁ now₂ h₁ h₂
    unfold RigControl.safeCallStart RigControl.min_request_interval at *
    split_ifs at * <;> linarith

/-- C1, witness: the amended theorem applied at a concrete connected
`get_frequency` call and a concrete pair of consecutive `_safe_call`
timings. -/
theorem C1_witness :
    (⟨RigControl.Path.safe, "rig.get_vfo"⟩ : RigControl.RemoteEvent).path =
      RigControl.Path.safe ∧
    RigControl.min_request_interval ≤
      RigControl.safeCallStart 1 (3/2) - RigControl.safeCallStart 0 1 := by
  refine ⟨?_, ?_⟩
  · exact C1_safe_call_routing_and_spacing.1 true (.ok 7000000)
      ⟨RigControl.Path.safe, "rig.get_vfo"⟩ (by decide)
  · exact C1_safe_call_routing_and_spacing.2.2.2.2.2.2.2.2 0 1 1 (3/2)
      (by norm_num [RigControl.safeCallStart, RigControl.min_request_interval])
      (by norm_num)

/-- C6: `set_mode` with a mode outside the fixed enum and `set_power` with
watts outside `[0, 10]` each return failure without issuing any remote
call, and for in-range arguments (on a connected Gateway) the remote call
is attempted. -/
theorem C6_argument_validation :
    (∀ c mode ok, (pyUpper mode) ∉ RigControl.valid_modes →
      RigControl.set_mode c mode ok = (false, [])) ∧
    (∀ c p ok, ¬ (0 ≤ p ∧ p ≤ 10) →
      RigControl.set_power c p ok = (false, [])) ∧
    (∀ mode ok, (pyUpper mode) ∈ RigControl.valid_modes →
      (RigControl.set_mode true mode ok).2 =
        [⟨RigControl.Path.safe, "rig.set_mode"⟩]) ∧
    (∀ p ok, 0 ≤ p → p ≤ 10 →
      (RigControl.set_power true p ok).2 =
        [⟨RigControl.Path.safe, "rig.set_power"⟩]) := by
  refine ⟨?_, ?_, ?_, ?_⟩
  · intro c mode ok h
    cases c <;> simp [RigControl.set_mode, h]
  · intro c p ok h
    cases c <;> simp [RigControl.set_power, h]
  · intro mode ok h
    simp [RigControl.set_mode, h]
  · intro p ok h0 h10
    simp [RigControl.set_power, h0, h10]

/-- C6, witness: an invalid mode and an out-of-range power are rejected
with no remote call; a valid mode and an in-range power reach the
endpoint. -/
theorem C6_witness :
    RigControl.set_mode true "DIGI" true = (false, []) ∧
    RigControl.set_power true 11 true = (false, []) ∧
    (RigControl.set_mode true "usb" true).2 =
      [⟨RigControl.Path.safe, "rig.set_mode"⟩] ∧
    (RigControl.set_power true 5 true).2 =
      [⟨RigControl.Path.safe, "rig.set_power"⟩] :=
  ⟨C6_argument_validation.1 true "DIGI" true (by decide),
   C6_argument_validation.2.1 true 11 true (by norm_num),
   C6_argument_validation.2.2.1 "usb" true (by decide),
   C6_argument_validation.2.2.2 5 true (by norm_num) (by norm_num)⟩

open RigctldBridge in
/-- C8: the forward mode map sends each external name to its internal
counterpart with PKTUSB/PKTLSB collapsing to USB/LSB; the reverse map
yields USB for any internal mode outside its key set; `M CWR` invokes
`set_mode` with internal `CW-R`; and an `m` query, when the Gateway
reports `CW-R`, replies `CWR\n0`. -/
theorem C8_mode_translation :
    (dict_get mode_map "USB" "USB" = "USB" ∧
     dict_get mode_map "LSB" "USB" = "LSB" ∧
     dict_get mode_map "CW" "USB" = "CW" ∧
     dict_get mode_map "CWR" "USB" = "CW-R" ∧
     dict_get mode_map "AM" "USB" = "AM" ∧
     dict_get mode_map "FM" "USB" = "FM" ∧
     dict_get mode_map "RTTY" "USB" = "RTTY" ∧
     dict_get mode_map "RTTYR" "USB" = "RTTY-R" ∧
     dict_get mode_map "PKTUSB" "USB" = "USB" ∧
     dict_get mode_map "PKTLSB" "USB" = "LSB") ∧
    (∀ m, m ∉ ["USB", "LSB", "CW", "CW-R", "AM", "FM", "RTTY", "RTTY-R"] →
      dict_get mode_map_reverse m "USB" = "USB") ∧
    (∀ gw, (_process_command "M CWR" gw).2 = [GwCall.setMode "CW-R"]) ∧
    (∀ gw, gw.get_mode = some "CW-R" →
      (_process_command "m" gw).1 = some "CWR\n0") := by
  refine ⟨by decide, dict_get_mode_map_reverse_default, ?_, ?_⟩
  · intro gw
    show (_process_parts ["M", "CWR"] gw).2 = _
    simp only [_process_parts]
    norm_num
    rw [show dict_get mode_map (pyUpper "CWR") "USB" = "CW-R" from rfl]
    cases h : gw.set_mode "CW-R" <;> simp [h]
  · intro gw h
    show (_process_parts ["m"] gw).1 = _
    simp only [_process_parts]
    norm_num
    rw [h]
    simp
    decide

open RigctldBridge in
/-- C8, witness: the generic parts of C8 applied at the internal mode
`WFM` (no defined inverse) and at a concrete oracle reporting `CW-R`. -/
theorem C8_witness :
    dict_get mode_map_reverse "WFM" "USB" = "USB" ∧
    (_process_command "m"
      ⟨some 14074000, fun _ => true, some "CW-R", fun _ => true,
       some false, fun _ => true⟩).1 = some "CWR\n0" :=
  ⟨C8_mode_translation.2.1 "WFM" (by decide),
   C8_mode_translation.2.2.2 _ rfl⟩

open RigctldBridge in
/-- C9: the reverse mode map, built with later entries overwriting earlier
ones, sends internal `USB` to `PKTUSB` and internal `LSB` to `PKTLSB`, so
an `m` query replies `PKTUSB\n0` (never `USB\n0`) when the Gateway reports
`USB`, and `PKTLSB\n0` when it reports `LSB`. -/
theorem C9_reverse_map_pkt_overwrite :
    dict_get mode_map_reverse "USB" "USB" = "PKTUSB" ∧
    dict_get mode_map_reverse "LSB" "USB" = "PKTLSB" ∧
    (∀ gw, gw.get_mode = some "USB" →
      (_process_command "m" gw).1 = some "PKTUSB\n0" ∧
      (_process_command "m" gw).1 ≠ some "USB\n0") ∧
    (∀ gw, gw.get_mode = some "LSB" →
      (_process_command "m" gw).1 = some "PKTLSB\n0") := by
  refine ⟨by decide, by decide, ?_, ?_⟩
  · intro gw h
    constructor
    · show (_process_parts ["m"] gw).1 = _
      simp only [_process_parts]
      norm_num
      rw [h]
      simp
      decide
    · show (_process_parts ["m"] gw).1 ≠ _
      simp only [_process_parts]
      norm_num
      rw [h]
      simp
      decide
  · intro gw h
    show (_process_parts ["m"] gw).1 = _
    simp only [_process_parts]
    norm_num
    rw [h]
    simp
    decide

open RigctldBridge in
/-- C9, witness: a concrete oracle reporting `USB` gets the reply
`PKTUSB\n0`, never `USB\n0`. -/
theorem C9_witness :
    (_process_command "m"
      ⟨some 14074000, fun _ => true, some "USB", fun _ => true,
       some false, fun _ => true⟩).1 = some "PKTUSB\n0" ∧
    (_process_command "m"
      ⟨some 14074000, fun _ => true, some "USB", fun _ => true,
       some false, fun _ => true⟩).1 ≠ some "USB\n0" :=
  C9_reverse_map_pkt_overwrite.2.2.1 _ rfl

open RigctldBridge in
/-- C10: a `M <word>` command whose upper-cased argument is outside the
external mode vocabulary silently substitutes internal `USB`, invokes
`set_mode "USB"`, and replies `RPRT 0` when that call succeeds — it never
fails merely because the mode name is unrecognized. -/
theorem C10_unknown_mode_defaults_to_usb :
    ∀ w gw, pyUpper w ∉ mode_map.map Prod.fst →
      (_process_parts ["M", w] gw).2 = [GwCall.setMode "USB"] ∧
      (gw.set_mode "USB" = true →
        (_process_parts ["M", w] gw).1 = some "RPRT 0") := by
  intro w gw hk
  have hd := dict_get_mode_map_default (pyUpper w) hk
  constructor
  · simp only [_process_parts]
    norm_num
    rw [hd]
    cases h : gw.set_mode "USB" <;> simp [h]
  · intro hok
    simp only [_process_parts]
    norm_num
    rw [hd, hok]
    simp

open RigctldBridge in
/-- C10, witness: `M FOO` with a succeeding Gateway substitutes `USB` and
replies `RPRT 0`. -/
theorem C10_witness :
    (_process_parts ["M", "FOO"]
      ⟨some 14074000, fun _ => true, some "USB", fun _ => true,
       some false, fun _ => true⟩).2 = [GwCall.setMode "USB"] ∧
    (_process_parts ["M", "FOO"]
      ⟨some 14074000, fun _ => true, some "USB", fun _ => true,
       some false, fun _ => true⟩).1 = some "RPRT 0" := by
  have h := C10_unknown_mode_defaults_to_usb "FOO"
    ⟨some 14074000, fun _ => true, some "USB", fun _ => true,
     some false, fun _ => true⟩ (by decide)
  exact ⟨h.1, h.2 rfl⟩

open FrequencySync in
/-- C7: in every synchronizer cycle, a failed rig frequency or rig mode
read aborts the cycle with no writes and no cursor updates, while a failed
display frequency read is non-fatal: the cycle behaves exactly as if the
display had reported the last known display value (so the display side is
unchanged this cycle). -/
theorem C7_read_failure_semantics :
    (∀ st sdrF rm A B C, sync_once st none sdrF rm A B C = (false, st, [])) ∧
    (∀ st rf sdrF A B C, sync_once st rf sdrF none A B C = (false, st, [])) ∧
    (∀ st rf rm A B C, sync_once st rf none rm A B C =
      sync_once st rf (some st.last_sdr_frequency) rm A B C) := by
  refine ⟨?_, ?_, ?_⟩
  · intro st sdrF rm A B C
    cases rm <;> rfl
  · intro st rf sdrF A B C
    cases rf <;> rfl
  · intro st rf rm A B C
    cases rf <;> cases rm <;> rfl

open RigctldBridge in
/-- C3, failing input evaluated: a running Bridge holding a shared
Gateway (`owns_rig = false`, ownership flag from construction) still ends
with the Gateway disconnected after `stop()`, because `stop` calls
`rig.disconnect()` unconditionally. -/
theorem C3_stop_disconnects_shared_gateway :
    (⟨true, false, true, none, true, true, true⟩ : BridgeState).owns_rig
        = false ∧
    (⟨true, false, true, none, true, true, true⟩ : BridgeState).rigConnected
        = true ∧
    (stop ⟨true, false, true, none, true, true, true⟩ true 0).1.rigConnected
        = false ∧
    StopAction.disconnectRig ∈
      (stop ⟨true, false, true, none, true, true, true⟩ true 0).2 := by
  decide

open RigctldBridge in
/-- C4: for every running Bridge, `stop()` attempts a forced PTT-off
through the safety wrapper immediately before releasing the Gateway
connection, whether or not that attempt succeeds (`ok` covers the error
path swallowed by `try/except`). -/
theorem C4_stop_ptt_off_before_disconnect (s : BridgeState) (ok : Bool)
    (now : ℚ) (h : s.running = true) :
    ∃ l, (stop s ok now).2 =
      l ++ [StopAction.forcePttOff, StopAction.disconnectRig] := by
  refine ⟨(if s.hasServerSocket then [StopAction.closeSocket] else []) ++
      (if s.hasServerThread then [StopAction.joinServerThread] else []) ++
      (if s.hasPttMonitorThread then [StopAction.joinPttMonitorThread]
       else []), ?_⟩
  simp [stop, h, List.append_assoc]

open RigctldBridge in
/-- C4, witness: stopping a running Bridge with an open PTT session and a
failing forced PTT-off still places the PTT-off attempt right before the
Gateway release. -/
theorem C4_witness :
    ∃ l, (stop ⟨true, true, true, some 5, true, true, true⟩ false 200).2 =
      l ++ [StopAction.forcePttOff, StopAction.disconnectRig] :=
  C4_stop_ptt_off_before_disconnect
    ⟨true, true, true, some 5, true, true, true⟩ false 200 rfl

open FrequencySync in
/-- C5: in a cycle where all reads succeed, the frequency action follows
the priority order — (a) both sides changed: the rig value is pushed to
the display, never to the rig, and on write success both cursors become
the rig value; (b) only the rig changed: the rig value is pushed to the
display only; (c) only the display changed: the display value is pushed
to the rig, never to the display, and (on write success) both cursors
become it; (d) neither changed: no frequency write occurs. -/
theorem C5_resolution_priority_order :
    ∀ st rf sf rm A B C,
      (rf ≠ st.last_rig_frequency → sf ≠ st.last_sdr_frequency →
        WriteEvent.sdrSetFrequency rf ∈
          (sync_once st (some rf) (some sf) (some rm) A B C).2.2 ∧
        (∀ h, WriteEvent.rigSetFrequency h ∉
          (sync_once st (some rf) (some sf) (some rm) A B C).2.2) ∧
        (A rf = true →
          (sync_once st (some rf) (some sf) (some rm) A B C).2.1.last_rig_frequency = rf ∧
          (sync_once st (some rf) (some sf) (some rm) A B C).2.1.last_sdr_frequency = rf)) ∧
      (rf ≠ st.last_rig_frequency → sf = st.last_sdr_frequency →
        WriteEvent.sdrSetFrequency rf ∈
          (sync_once st (some rf) (some sf) (some rm) A B C).2.2 ∧
        (∀ h, WriteEvent.rigSetFrequency h ∉
          (sync_once st (some rf) (some sf) (some rm) A B C).2.2)) ∧
      (rf = st.last_rig_frequency → sf ≠ st.last_sdr_frequency → B sf = true →
        WriteEvent.rigSetFrequency sf ∈
          (sync_once st (some rf) (some sf) (some rm) A B C).2.2 ∧
        (∀ h, WriteEvent.sdrSetFrequency h ∉
          (sync_once st (some rf) (some sf) (some rm) A B C).2.2) ∧
        (sync_once st (some rf) (some sf) (some rm) A B C).2.1.last_rig_frequency = sf ∧
        (sync_once st (some rf) (some sf) (some rm) A B C).2.1.last_sdr_frequency = sf) ∧
      (rf = st.last_rig_frequency → sf = st.last_sdr_frequency →
        ∀ e ∈ (sync_once st (some rf) (some sf) (some rm) A B C).2.2,
          isFreqWrite e = false) := by
  intro st rf sf rm A B C
  refine ⟨?_, ?_, ?_, ?_⟩
  · intro h1 h2
    by_cases hm : rm = st.last_mode <;> cases hA : A rf <;> cases hC : C rm <;>
      simp [sync_once, h1, h2, hm, hA, hC]
  · intro h1 h2
    by_cases hm : rm = st.last_mode <;> cases hA : A rf <;> cases hC : C rm <;>
      simp [sync_once, h1, h2, hm, hA, hC]
  · intro h1 h2 hB
    by_cases hm : rm = st.last_mode <;> cases hC : C rm <;>
      simp [sync_once, h1, h2, hm, hB, hC]
  · intro h1 h2
    by_cases hm : rm = st.last_mode <;> cases hC : C rm <;>
      simp [sync_once, h1, h2, hm, hC, isFreqWrite]

open FrequencySync in
/-- C5, witness: a cycle where only the display changed pushes the display
value to the rig and sets both cursors to it. -/
theorem C5_witness :
    WriteEvent.rigSetFrequency 7200000 ∈
      (sync_once ⟨7000000, 7100000, "USB"⟩ (some 7000000) (some 7200000)
        (some "USB") (fun _ => true) (fun _ => true) (fun _ => true)).2.2 ∧
    (sync_once ⟨7000000, 7100000, "USB"⟩ (some 7000000) (some 7200000)
      (some "USB") (fun _ => true) (fun _ => true)
      (fun _ => true)).2.1.last_rig_frequency = 7200000 ∧
    (sync_once ⟨7000000, 7100000, "USB"⟩ (some 7000000) (some 7200000)
      (some "USB") (fun _ => true) (fun _ => true)
      (fun _ => true)).2.1.last_sdr_frequency = 7200000 := by
  have h := (C5_resolution_priority_order ⟨7000000, 7100000, "USB"⟩ 7000000
    7200000 "USB" (fun _ => true) (fun _ => true) (fun _ => true)).2.2.1
    rfl (by decide) rfl
  exact ⟨h.1, h.2.2.1, h.2.2.2⟩

open RigctldBridge in
/-- C2: if PTT is set on via the Bridge's safety wrapper at time `T > 0`
and no PTT-off occurs before `T + ptt_timeout`, then along any sequence of
watchdog wake times `W` with cadence at most one `monitor_tick` that was
already awake before the deadline and keeps waking past it, some wake
falls in `(T + ptt_timeout, T + ptt_timeout + monitor_tick]`, every
earlier wake leaves the session untouched, and that wake forces PTT off
(clearing the session). -/
theorem C2_watchdog_forces_ptt_off (W : ℕ → ℚ) (T : ℚ) (hT : 0 < T)
    (hcad : ∀ n, W (n + 1) ≤ W n + monitor_tick)
    (h0 : W 0 ≤ T + ptt_timeout)
    (hex : ∃ m, T + ptt_timeout < W m) :
    (_set_ptt none true true T).2 = some T ∧
    ∃ n, T + ptt_timeout < W n ∧ W n ≤ T + ptt_timeout + monitor_tick ∧
      (∀ k < n, _ptt_monitor_step (some T) true (W k) = (some T, false)) ∧
      _ptt_monitor_step (some T) true (W n) = (none, true) := by
  constructor
  · rfl
  · classical
    have hn : T + ptt_timeout < W (Nat.find hex) := Nat.find_spec hex
    have hmin : ∀ k < Nat.find hex, ¬ (T + ptt_timeout < W k) :=
      fun k hk => Nat.find_min hex hk
    refine ⟨Nat.find hex, hn, ?_, ?_, ?_⟩
    · rcases Nat.eq_zero_or_pos (Nat.find hex) with h | h
      · rw [h] at hn
        linarith
      · obtain ⟨m, hm'⟩ := Nat.exists_eq_succ_of_ne_zero h.ne'
        have hmle : ¬ (T + ptt_timeout < W m) := by
          refine hmin m ?_
          omega
        have hc := hcad m
        rw [hm'] at hn ⊢
        push_neg at hmle
        linarith
    · intro k hk
      have hk' : ¬ (T + ptt_timeout < W k) := hmin k hk
      push_neg at hk'
      simp only [_ptt_monitor_step]
      rw [if_pos hT.ne', if_neg (by linarith : ¬ (W k - T > ptt_timeout))]
    · simp only [_ptt_monitor_step]
      rw [if_pos hT.ne', if_pos (by linarith : W (Nat.find hex) - T > ptt_timeout)]
      rfl

open RigctldBridge in
/-- C2, witness: with integer wake times, PTT on at `T = 5` and a 180s
ceiling, the watchdog fires in `(185, 186]`. -/
theorem C2_witness :
    (_set_ptt none true true 5).2 = some 5 ∧
    ∃ n : ℕ, (5 : ℚ) + ptt_timeout < (n : ℚ) ∧
      (n : ℚ) ≤ 5 + ptt_timeout + monitor_tick ∧
      (∀ k < n, _ptt_monitor_step (some 5) true ((k : ℕ) : ℚ) = (some 5, false)) ∧
      _ptt_monitor_step (some 5) true ((n : ℕ) : ℚ) = (none, true) := by
  have h := C2_watchdog_forces_ptt_off (fun k : ℕ => (k : ℚ)) 5 (by norm_num)
    (by intro n; push_cast [monitor_tick]; linarith)
    (by norm_num [ptt_timeout])
    ⟨186, by norm_num [ptt_timeout]⟩
  simpa using h
